import Mathlib

/-!
Shallow embedding of `src/main.py` (audio transcription pipeline around the
Whisper engine and FFmpeg).  Filesystem paths are modelled as a parent
directory plus a final component, since the source only uses `Path.parent`,
`Path.stem` and path joining.  External collaborators (file picker, FFmpeg,
the whisper/torch packages, the filesystem) are modelled as an explicit
`World` of capability responses, and `run` replays `main` as a pure function
producing an `Outcome` (how the process terminated) and a `RunState`
(the event trace, whether the staged temporary directory still exists on
disk, and the transcript file's content if one was written).
-/

/-- A filesystem path, as used by the source: `dir` is `Path.parent`
(as a string, no trailing slash), `name` the final component. -/
structure MediaPath where
  dir : String
  name : String
deriving DecidableEq, Repr

/-- Full textual path, used when a path is passed to a subprocess or engine. -/
def pathStr (p : MediaPath) : String :=
  p.dir ++ "/" ++ p.name

/-- The whitespace characters stripped by Python `str.strip()`
(ASCII whitespace, the C1 control spaces, and the Unicode space separators). -/
def pyWhitespaceChars : List Char :=
  [' ', '\t', '\n', '\x0b', '\x0c', '\r', '\x1c', '\x1d', '\x1e', '\x1f',
   '\u0085', ' ', ' ',
   ' ', ' ', ' ', ' ', ' ', ' ', ' ',
   ' ', ' ', ' ', ' ',
   ' ', ' ', ' ', ' ', '　']

/-- Is `c` whitespace in the sense of Python `str.strip()`? -/
def pyWhitespace (c : Char) : Bool :=
  c ∈ pyWhitespaceChars

/-- Python `str.strip()` on the underlying character list. -/
def pyStripList (cs : List Char) : List Char :=
  ((cs.dropWhile pyWhitespace).reverse.dropWhile pyWhitespace).reverse

/-- Python `str.strip()`: remove leading and trailing whitespace. -/
def pyStrip (s : String) : String :=
  ⟨pyStripList s.data⟩

/-- Python `s.endswith("\n")`. -/
def pyEndsWithNewline (s : String) : Bool :=
  s.data.getLast? = some '\n'

/-- Index of the last `'.'` in the list, if any (Python `str.rfind('.')`). -/
def lastDotIdxAux : List Char → Nat → Option Nat → Option Nat
  | [], _, acc => acc
  | c :: rest, i, acc => lastDotIdxAux rest (i + 1) (if c = '.' then some i else acc)

/-- Index of the last `'.'` in `name`, if any. -/
def lastDotIdx (cs : List Char) : Option Nat :=
  lastDotIdxAux cs 0 none

/-- `pathlib.PurePath.stem`: the final component without its last suffix.
CPython: `i = name.rfind('.'); return name[:i] if 0 < i < len(name) - 1 else name`. -/
def pyStem (name : String) : String :=
  match lastDotIdx name.data with
  | none => name
  | some i => if 0 < i ∧ i < name.data.length - 1 then ⟨name.data.take i⟩ else name

/-- Line 76 of `main.py`:
`device = args.device if args.device else ("cuda" if torch.cuda.is_available() else "cpu")`.
Python truthiness: both a missing `--device` and an empty-string `--device`
fall through to the CUDA probe. -/
def resolveDevice (override : Option String) (cudaAvailable : Bool) : String :=
  match override with
  | some d => if d = "" then (if cudaAvailable then "cuda" else "cpu") else d
  | none => if cudaAvailable then "cuda" else "cpu"

/-- Lines 103-105 of `main.py`:
`outdir = Path(args.outdir).expanduser() if args.outdir else src_path.parent`.
Python truthiness again: an empty-string `--outdir` falls back to the parent. -/
def effectiveOutdir (outdirArg : Option String) (src : MediaPath) : String :=
  match outdirArg with
  | some d => if d = "" then src.dir else d
  | none => src.dir

/-- Line 105 of `main.py`: `out_txt = outdir / f"{src_path.stem}_transcript.txt"`. -/
def transcriptPath (outdirArg : Option String) (src : MediaPath) : String :=
  effectiveOutdir outdirArg src ++ "/" ++ pyStem src.name ++ "_transcript.txt"

/-- Lines 108-110 of `main.py`: the bytes written to the transcript file,
`text = result.get("text", "").strip()` then
`f.write(text + ("\n" if text and not text.endswith("\n") else ""))`. -/
def transcriptFileContent (raw : String) : String :=
  let text := pyStrip raw
  text ++ (if text ≠ "" ∧ pyEndsWithNewline text = false then "\n" else "")

/-- The transcript writer as a filesystem update: `open(out_txt, "w")` truncates,
so the new content at `path` does not depend on what was there before. -/
def writeTranscriptFile (fs : String → Option String) (path : String) (raw : String) :
    String → Option String :=
  fun q => if q = path then some (transcriptFileContent raw) else fs q

/-- Lines 43-49 of `main.py`: the FFmpeg argument vector built by
`extract_track_to_wav` for source path `srcPath`, audio track `trackIndex`
and staged temporary directory `tmpdir`. -/
def extractTrackCmd (srcPath : String) (trackIndex : Int) (tmpdir : String) : List String :=
  ["ffmpeg", "-hide_banner", "-loglevel", "error", "-y",
   "-i", srcPath,
   "-vn", "-map", "0:a:" ++ toString trackIndex,
   "-acodec", "pcm_s16le", "-ar", "16000", "-ac", "1",
   tmpdir ++ "/audio_track.wav"]

/-- Line 86 of `main.py`: the `sys.exit` message on FFmpeg extraction failure,
`f"FFmpeg failed to extract audio track {args.audio_track}: {e}"`. -/
def extractFailMsg (trackIndex : Int) (errStr : String) : String :=
  "FFmpeg failed to extract audio track " ++ toString trackIndex ++ ": " ++ errStr

/-- Line 33 of `main.py`. -/
def ffmpegMissingMsg : String :=
  "FFmpeg not found. Please install FFmpeg and ensure it is in your PATH."

/-- Line 73 of `main.py`. -/
def whisperMissingMsg : String :=
  "The \x27whisper\x27 package is not installed. Install via: pip install -U openai-whisper"

/-- Line 66 of `main.py`. -/
def noInputMsg : String :=
  "No valid input file selected/provided."

/-- Parsed command-line arguments (lines 54-61 of `main.py`). -/
structure Args where
  input : Option MediaPath
  model : String
  language : Option String
  audioTrack : Option Int
  outdir : Option String
  device : Option String

/-- Responses of the external collaborators consumed by one run: the GUI
picker, `shutil.which("ffmpeg")`, the `import whisper` probe, the CUDA probe,
the name `tempfile.mkdtemp` returns, the FFmpeg subprocess exit code and its
`CalledProcessError` string, model load / inference / file-write success, and
the `"text"` field of the transcription result (`none` = key absent). -/
structure World where
  pickerResult : Option MediaPath
  srcExists : MediaPath → Bool
  ffmpegOnPath : Bool
  whisperInstalled : Bool
  cudaAvailable : Bool
  mkdtempDir : String
  ffmpegExitCode : Nat
  ffmpegErrStr : String
  loadModelOk : Bool
  inferenceOk : Bool
  resultText : Option String
  writeOk : Bool

/-- How the process terminated: normal return from `main` (printing the
transcript path), `sys.exit(msg)` (prints `msg`, exit status 1), or an
uncaught exception (traceback, nonzero exit status). -/
inductive PyErr where
  | loadModelError
  | inferenceError
  | writeError
deriving DecidableEq, Repr

inductive Outcome where
  | success (printedPath : String)
  | fatalExit (msg : String)
  | uncaught (e : PyErr)
deriving DecidableEq, Repr

/-- Process exit status for each outcome (`sys.exit(str)` exits with 1;
an uncaught exception also terminates with a nonzero status). -/
def Outcome.exitCode : Outcome → Nat
  | .success _ => 0
  | .fatalExit _ => 1
  | .uncaught _ => 1

/-- Observable side effects of a run, in order. -/
inductive Event where
  | checkFfmpegOnPath
  | importEngine
  | stageTmpDir (name : String)
  | runFfmpeg (cmd : List String)
  | loadModel (model device : String)
  | transcribe (mediaPath : String)
  | mkdirOutdir (dir : String)
  | writeFile (path content : String)
  | printLine (msg : String)
  | removeTree (dir : String)
deriving DecidableEq, Repr

/-- Does the event touch a file: read it, write it, or stage/remove a
staging directory?  (Dependency checks, the engine calls and printing
do not touch the run's files.) -/
def Event.isFileWork : Event → Bool
  | .stageTmpDir _ => true
  | .runFfmpeg _ => true
  | .transcribe _ => true
  | .mkdirOutdir _ => true
  | .writeFile _ _ => true
  | .removeTree _ => true
  | _ => false

/-- Is the event an invocation of the transcription engine? -/
def Event.isEngineCall : Event → Bool
  | .loadModel _ _ => true
  | .transcribe _ => true
  | _ => false

/-- State observable after the process has terminated. -/
structure RunState where
  events : List Event
  tmpDirExists : Bool
  outFile : Option String
deriving DecidableEq, Repr

/-- Line 64 of `main.py`: CLI input if present, else the GUI picker. -/
def resolveInput (a : Args) (w : World) : Option MediaPath :=
  match a.input with
  | some p => some p
  | none => w.pickerResult

/-- Lines 115-119 of `main.py`, reached only by falling off the end of the
success path: `if tmp_to_cleanup and tmp_to_cleanup.exists(): try rmtree
except: pass`.  A failing `rmtree` is swallowed and leaves the directory. -/
def finishRun (rmtreeOk : Bool) (tmpToCleanup : Option String) (outPath : String)
    (st : RunState) : Outcome × RunState :=
  match tmpToCleanup with
  | some d =>
    if st.tmpDirExists then
      let ev := st.events ++ [Event.removeTree d]
      (Outcome.success outPath,
       { st with events := ev, tmpDirExists := if rmtreeOk then false else true })
    else (Outcome.success outPath, st)
  | none => (Outcome.success outPath, st)

/-- Lines 92-112 of `main.py`: load the model, transcribe, derive the output
path, write the transcript, print the path, then clean up.  Any failure
raises out of `main` uncaught (there is no surrounding handler). -/
def transcribeAndWrite (a : Args) (w : World) (rmtreeOk : Bool) (src : MediaPath)
    (mediaPath : String) (tmpToCleanup : Option String) (device : String)
    (st : RunState) : Outcome × RunState :=
  if w.loadModelOk then
    let st1 := { st with events := st.events ++ [Event.loadModel a.model device] }
    if w.inferenceOk then
      let st2 := { st1 with events := st1.events ++ [Event.transcribe mediaPath] }
      let outdir := effectiveOutdir a.outdir src
      let st3 := { st2 with events := st2.events ++ [Event.mkdirOutdir outdir] }
      let outPath := transcriptPath a.outdir src
      if w.writeOk then
        let content := transcriptFileContent (w.resultText.getD "")
        let ev4 := st3.events ++ [Event.writeFile outPath content]
        let st4 := { st3 with events := ev4, outFile := some content }
        let st5 := { st4 with events := st4.events ++
                       [Event.printLine ("Transcript saved to: " ++ outPath)] }
        finishRun rmtreeOk tmpToCleanup outPath st5
      else (Outcome.uncaught PyErr.writeError, st3)
    else (Outcome.uncaught PyErr.inferenceError, st1)
  else (Outcome.uncaught PyErr.loadModelError, st)

/-- `main` (lines 53-119 of `main.py`) as a pure function of the argument
vector and the collaborators' responses. -/
def run (a : Args) (w : World) (rmtreeOk : Bool) : Outcome × RunState :=
  let st0 : RunState := { events := [], tmpDirExists := false, outFile := none }
  match resolveInput a w with
  | none => (Outcome.fatalExit noInputMsg, st0)
  | some src =>
    if w.srcExists src then
      if w.whisperInstalled then
        let st1 := { st0 with events := st0.events ++ [Event.importEngine] }
        let device := resolveDevice a.device w.cudaAvailable
        match a.audioTrack with
        | some trackIndex =>
          if w.ffmpegOnPath then
            let ev2 := st1.events ++ [Event.checkFfmpegOnPath, Event.stageTmpDir w.mkdtempDir]
            let st2 := { st1 with events := ev2, tmpDirExists := true }
            let cmd := extractTrackCmd (pathStr src) trackIndex w.mkdtempDir
            let st3 := { st2 with events := st2.events ++ [Event.runFfmpeg cmd] }
            if w.ffmpegExitCode = 0 then
              transcribeAndWrite a w rmtreeOk src (w.mkdtempDir ++ "/audio_track.wav")
                (some w.mkdtempDir) device st3
            else
              (Outcome.fatalExit (extractFailMsg trackIndex w.ffmpegErrStr), st3)
          else
            (Outcome.fatalExit ffmpegMissingMsg,
             { st1 with events := st1.events ++ [Event.checkFfmpegOnPath] })
        | none =>
          transcribeAndWrite a w rmtreeOk src (pathStr src) none device st1
      else (Outcome.fatalExit whisperMissingMsg, st0)
    else (Outcome.fatalExit noInputMsg, st0)

/-! ### Concrete sample runs -/

/-- Sample source file `media/clip.mkv`. -/
def sampleSrc : MediaPath :=
  { dir := "media", name := "clip.mkv" }

/-- A run that requests extraction of audio track 0. -/
def sampleArgsTrack : Args :=
  { input := some sampleSrc, model := "medium", language := none,
    audioTrack := some 0, outdir := none, device := none }

/-- A run with no `--audio-track`. -/
def sampleArgsNoTrack : Args :=
  { input := some sampleSrc, model := "medium", language := none,
    audioTrack := none, outdir := none, device := none }

/-- A world in which every collaborator succeeds. -/
def sampleWorldOk : World :=
  { pickerResult := none, srcExists := fun _ => true, ffmpegOnPath := true,
    whisperInstalled := true, cudaAvailable := false,
    mkdtempDir := "/tmp/whisper_x1", ffmpegExitCode := 0, ffmpegErrStr := "",
    loadModelOk := true, inferenceOk := true,
    resultText := some "  Hi there.  ", writeOk := true }

def sampleWorldExtractFail : World :=
  { sampleWorldOk with ffmpegExitCode := 1, ffmpegErrStr := "ffmpeg error exit status 1." }

def sampleWorldNoText : World :=
  { sampleWorldOk with resultText := none }

def sampleWorldNoWhisper : World :=
  { sampleWorldOk with whisperInstalled := false }

def sampleWorldNoFfmpeg : World :=
  { sampleWorldOk with ffmpegOnPath := false }

def sampleWorldLoadFail : World :=
  { sampleWorldOk with loadModelOk := false }

/-! ### Helper lemmas about stripping -/

/-- The first character surviving `dropWhile` fails the predicate. -/
theorem head_dropWhile_pyws_false :
    ∀ (l : List Char) (c : Char),
      (l.dropWhile pyWhitespace).head? = some c → pyWhitespace c = false := by
  intro l
  induction l with
  | nil => intro c h; simp [List.dropWhile] at h
  | cons a t ih =>
    intro c h
    rw [List.dropWhile_cons] at h
    cases hp : pyWhitespace a with
    | true => rw [hp] at h; simp at h; exact ih c h
    | false => rw [hp] at h; simp at h; rw [← h]; exact hp

/-- The last character of a stripped list is not Python whitespace. -/
theorem pyStripList_getLast_not_ws (cs : List Char) (c : Char)
    (h : (pyStripList cs).getLast? = some c) : pyWhitespace c = false := by
  unfold pyStripList at h
  rw [List.getLast?_reverse] at h
  exact head_dropWhile_pyws_false _ c h

/-- A stripped string never ends with a newline. -/
theorem pyStrip_not_endsWithNewline (t : String) :
    pyEndsWithNewline (pyStrip t) = false := by
  simp only [pyEndsWithNewline, pyStrip, decide_eq_false_iff_not]
  intro h
  have h1 := pyStripList_getLast_not_ws t.data '\n' h
  have h2 : pyWhitespace '\n' = true := by decide
  rw [h1] at h2
  exact Bool.noConfusion h2

/-- Closed form of the written bytes: the stripped text plus one newline
when non-empty, the empty string otherwise. -/
theorem transcriptFileContent_eq (t : String) :
    transcriptFileContent t = if pyStrip t = "" then "" else pyStrip t ++ "\n" := by
  by_cases h : pyStrip t = ""
  · simp [transcriptFileContent, h]
  · have hnl := pyStrip_not_endsWithNewline t
    simp [transcriptFileContent, h, hnl]

/-! ### Claim theorems -/

/-- C2: for every transcription result text `t`, the transcript writer
persists exactly `strip(t)` followed by one newline when `strip(t)` is
non-empty, and an empty file when it is empty; in particular `"hello"` is
stored as `"hello\n"`, `""` as `""`, and `"hello\n"` as `"hello\n"`
with no doubled newline. -/
theorem trailing_newline_normalization (t : String) (fs : String → Option String)
    (path : String) :
    writeTranscriptFile fs path t path
      = some (if pyStrip t = "" then "" else pyStrip t ++ "\n")
    ∧ transcriptFileContent "hello" = "hello\n"
    ∧ transcriptFileContent "" = ""
    ∧ transcriptFileContent "hello\n" = "hello\n" := by
  refine ⟨?_, by decide, by decide, by decide⟩
  unfold writeTranscriptFile
  rw [if_pos rfl, transcriptFileContent_eq]

/-- C8: writing is idempotent and an unconditional overwrite: for any prior
filesystem, writing puts exactly `transcriptFileContent t` at the target path
(independently of what was there, so nothing is appended), and writing a
second time leaves byte-identical content. -/
theorem idempotent_overwrite (fs : String → Option String) (path t : String) :
    writeTranscriptFile fs path t path = some (transcriptFileContent t)
    ∧ writeTranscriptFile (writeTranscriptFile fs path t) path t path
        = writeTranscriptFile fs path t path := by
  unfold writeTranscriptFile
  simp

/-- C4 counterexample: the claim says an explicit `--device` override is
returned verbatim whenever one is supplied, regardless of accelerator
availability.  Supplying the empty-string override with CUDA available
yields `"cuda"`, not the supplied `""` (Python truthiness of `args.device`). -/
theorem device_override_empty_cex :
    resolveDevice (some "") true = "cuda" ∧ resolveDevice (some "") true ≠ "" := by
  exact ⟨rfl, by decide⟩

/-- C4 (amended): a *non-empty* explicit `--device` override is returned
verbatim regardless of accelerator availability; with no override the CUDA
probe decides between `"cuda"` and `"cpu"`; an empty-string override is
treated as absent. -/
theorem device_resolution (d : String) (c : Bool) (hd : d ≠ "") :
    resolveDevice (some d) c = d
    ∧ resolveDevice none true = "cuda"
    ∧ resolveDevice none false = "cpu"
    ∧ resolveDevice (some "") c = resolveDevice none c := by
  refine ⟨?_, rfl, rfl, ?_⟩
  · simp [resolveDevice, hd]
  · simp [resolveDevice]

theorem device_resolution_witness :
    resolveDevice (some "cpu") true = "cpu"
    ∧ resolveDevice none true = "cuda"
    ∧ resolveDevice none false = "cpu"
    ∧ resolveDevice (some "") true = resolveDevice none true :=
  device_resolution "cpu" true (by decide)

/-- C6 counterexample: the claim says the output path is
`{outdir}/{stem}_transcript.txt` with `outdir` the explicit `--outdir`
whenever one is given.  Supplying the empty-string `--outdir` for source
`media/clip.mkv` yields `media/clip_transcript.txt` (the parent directory is
used instead: Python truthiness of `args.outdir`), which matches neither
reading of an empty `outdir` (`/clip_transcript.txt` or
`./clip_transcript.txt`). -/
theorem outdir_empty_cex :
    transcriptPath (some "") { dir := "media", name := "clip.mkv" }
      = "media/clip_transcript.txt"
    ∧ ("media/clip_transcript.txt" : String) ≠ "/clip_transcript.txt"
    ∧ ("media/clip_transcript.txt" : String) ≠ "./clip_transcript.txt" := by
  refine ⟨by decide, by decide, by decide⟩

/-- C6 (amended): the transcript path is
`{outdir}/{source_stem}_transcript.txt` where `outdir` is the explicit
`--outdir` when one is given and non-empty, and the source's parent directory
otherwise (an empty `--outdir` is treated as absent); in particular
`clip.mkv` with no `--outdir` yields `{parent}/clip_transcript.txt`. -/
theorem transcript_path_derivation (src : MediaPath) (d p : String) (hd : d ≠ "") :
    transcriptPath (some d) src = d ++ "/" ++ pyStem src.name ++ "_transcript.txt"
    ∧ transcriptPath none src = src.dir ++ "/" ++ pyStem src.name ++ "_transcript.txt"
    ∧ transcriptPath (some "") src
        = src.dir ++ "/" ++ pyStem src.name ++ "_transcript.txt"
    ∧ transcriptPath none { dir := p, name := "clip.mkv" } = p ++ "/clip_transcript.txt" := by
  refine ⟨?_, rfl, ?_, ?_⟩
  · simp [transcriptPath, effectiveOutdir, hd]
  · simp [transcriptPath, effectiveOutdir]
  · show p ++ "/" ++ pyStem "clip.mkv" ++ "_transcript.txt" = p ++ "/clip_transcript.txt"
    have hs : pyStem "clip.mkv" = "clip" := by decide
    rw [hs, String.append_assoc, String.append_assoc]
    congr 1

theorem transcript_path_derivation_witness :
    transcriptPath (some "out") { dir := "media", name := "clip.mkv" }
      = "out" ++ "/" ++ pyStem "clip.mkv" ++ "_transcript.txt"
    ∧ transcriptPath none { dir := "media", name := "clip.mkv" }
      = "media" ++ "/" ++ pyStem "clip.mkv" ++ "_transcript.txt"
    ∧ transcriptPath (some "") { dir := "media", name := "clip.mkv" }
      = "media" ++ "/" ++ pyStem "clip.mkv" ++ "_transcript.txt"
    ∧ transcriptPath none { dir := "media", name := "clip.mkv" }
      = "media" ++ "/clip_transcript.txt" :=
  transcript_path_derivation { dir := "media", name := "clip.mkv" } "out" "media" (by decide)

/-- C5: for every non-negative track index, the FFmpeg invocation built by
`extract_track_to_wav` drops video (`-vn`), selects the audio stream at that
0-based index among audio streams only (the `-map` argument is the
audio-relative selector `0:a:<index>`, not an absolute `0:<index>` container
selector), transcodes to mono (`-ac 1`), 16 kHz (`-ar 16000`), 16-bit PCM
(`-acodec pcm_s16le`), overwrites unconditionally (`-y`), suppresses
informational logging (`-loglevel error`), and writes to the fixed filename
`audio_track.wav` inside the freshly created temporary directory. -/
theorem extraction_parameterization (srcPath : String) (i : Int) (tmpdir : String)
    (_hi : 0 ≤ i) :
    "-vn" ∈ extractTrackCmd srcPath i tmpdir
    ∧ (∃ pre suf, extractTrackCmd srcPath i tmpdir
        = pre ++ ["-map", "0:a:" ++ toString i] ++ suf)
    ∧ (∃ pre suf, extractTrackCmd srcPath i tmpdir
        = pre ++ ["-acodec", "pcm_s16le"] ++ suf)
    ∧ (∃ pre suf, extractTrackCmd srcPath i tmpdir = pre ++ ["-ar", "16000"] ++ suf)
    ∧ (∃ pre suf, extractTrackCmd srcPath i tmpdir = pre ++ ["-ac", "1"] ++ suf)
    ∧ "-y" ∈ extractTrackCmd srcPath i tmpdir
    ∧ (∃ pre suf, extractTrackCmd srcPath i tmpdir = pre ++ ["-loglevel", "error"] ++ suf)
    ∧ (extractTrackCmd srcPath i tmpdir).getLast? = some (tmpdir ++ "/audio_track.wav") := by
  refine ⟨by simp [extractTrackCmd], ?_, ?_, ?_, ?_, by simp [extractTrackCmd], ?_, rfl⟩
  · exact ⟨["ffmpeg", "-hide_banner", "-loglevel", "error", "-y", "-i", srcPath, "-vn"],
          ["-acodec", "pcm_s16le", "-ar", "16000", "-ac", "1", tmpdir ++ "/audio_track.wav"],
          rfl⟩
  · exact ⟨["ffmpeg", "-hide_banner", "-loglevel", "error", "-y", "-i", srcPath, "-vn",
            "-map", "0:a:" ++ toString i],
          ["-ar", "16000", "-ac", "1", tmpdir ++ "/audio_track.wav"], rfl⟩
  · exact ⟨["ffmpeg", "-hide_banner", "-loglevel", "error", "-y", "-i", srcPath, "-vn",
            "-map", "0:a:" ++ toString i, "-acodec", "pcm_s16le"],
          ["-ac", "1", tmpdir ++ "/audio_track.wav"], rfl⟩
  · exact ⟨["ffmpeg", "-hide_banner", "-loglevel", "error", "-y", "-i", srcPath, "-vn",
            "-map", "0:a:" ++ toString i, "-acodec", "pcm_s16le", "-ar", "16000"],
          [tmpdir ++ "/audio_track.wav"], rfl⟩
  · exact ⟨["ffmpeg", "-hide_banner"],
          ["-y", "-i", srcPath, "-vn", "-map", "0:a:" ++ toString i,
           "-acodec", "pcm_s16le", "-ar", "16000", "-ac", "1",
           tmpdir ++ "/audio_track.wav"], rfl⟩

theorem extraction_parameterization_witness :
    "-vn" ∈ extractTrackCmd "media/clip.mkv" 1 "/tmp/whisper_x1"
    ∧ (∃ pre suf, extractTrackCmd "media/clip.mkv" 1 "/tmp/whisper_x1"
        = pre ++ ["-map", "0:a:" ++ toString (1 : Int)] ++ suf)
    ∧ (∃ pre suf, extractTrackCmd "media/clip.mkv" 1 "/tmp/whisper_x1"
        = pre ++ ["-acodec", "pcm_s16le"] ++ suf)
    ∧ (∃ pre suf, extractTrackCmd "media/clip.mkv" 1 "/tmp/whisper_x1"
        = pre ++ ["-ar", "16000"] ++ suf)
    ∧ (∃ pre suf, extractTrackCmd "media/clip.mkv" 1 "/tmp/whisper_x1"
        = pre ++ ["-ac", "1"] ++ suf)
    ∧ "-y" ∈ extractTrackCmd "media/clip.mkv" 1 "/tmp/whisper_x1"
    ∧ (∃ pre suf, extractTrackCmd "media/clip.mkv" 1 "/tmp/whisper_x1"
        = pre ++ ["-loglevel", "error"] ++ suf)
    ∧ (extractTrackCmd "media/clip.mkv" 1 "/tmp/whisper_x1").getLast?
        = some ("/tmp/whisper_x1" ++ "/audio_track.wav") :=
  extraction_parameterization "media/clip.mkv" 1 "/tmp/whisper_x1" (by decide)

/-! ### Run-level lemmas -/

/-- Cleanup always falls through to a successful exit printing the transcript
path, and only ever appends a `removeTree` attempt to the trace. -/
theorem finishRun_spec (b : Bool) (tmp : Option String) (p : String) (st : RunState) :
    (finishRun b tmp p st).1 = Outcome.success p
    ∧ (∃ extra, (finishRun b tmp p st).2.events = st.events ++ extra)
    ∧ (finishRun b tmp p st).2.outFile = st.outFile := by
  unfold finishRun
  cases tmp with
  | none => exact ⟨rfl, ⟨[], by simp⟩, rfl⟩
  | some d =>
    by_cases h : st.tmpDirExists = true
    · refine ⟨by simp [h], ⟨[Event.removeTree d], by simp [h]⟩, by simp [h]⟩
    · refine ⟨by simp [h], ⟨[], by simp [h]⟩, by simp [h]⟩

/-- The cleanup result, apart from whether the directory is gone, does not
depend on whether `shutil.rmtree` succeeded. -/
theorem finishRun_rmtree_indep (b1 b2 : Bool) (tmp : Option String) (p : String)
    (st : RunState) :
    (finishRun b1 tmp p st).1 = (finishRun b2 tmp p st).1
    ∧ (finishRun b1 tmp p st).2.events = (finishRun b2 tmp p st).2.events
    ∧ (finishRun b1 tmp p st).2.outFile = (finishRun b2 tmp p st).2.outFile := by
  unfold finishRun
  cases tmp with
  | none => exact ⟨rfl, rfl, rfl⟩
  | some d =>
    by_cases h : st.tmpDirExists = true
    · refine ⟨by simp [h], by simp [h], by simp [h]⟩
    · refine ⟨by simp [h], by simp [h], by simp [h]⟩

/-- The engine/writer phase, apart from whether the staged directory is gone,
does not depend on whether `shutil.rmtree` succeeded. -/
theorem transcribeAndWrite_rmtree_indep (a : Args) (w : World) (b1 b2 : Bool)
    (src : MediaPath) (mediaPath : String) (tmp : Option String) (device : String)
    (st : RunState) :
    (transcribeAndWrite a w b1 src mediaPath tmp device st).1
      = (transcribeAndWrite a w b2 src mediaPath tmp device st).1
    ∧ (transcribeAndWrite a w b1 src mediaPath tmp device st).2.events
      = (transcribeAndWrite a w b2 src mediaPath tmp device st).2.events
    ∧ (transcribeAndWrite a w b1 src mediaPath tmp device st).2.outFile
      = (transcribeAndWrite a w b2 src mediaPath tmp device st).2.outFile := by
  unfold transcribeAndWrite
  cases h1 : w.loadModelOk with
  | false => exact ⟨rfl, rfl, rfl⟩
  | true =>
    simp only [if_pos rfl]
    cases h2 : w.inferenceOk with
    | false => simp
    | true =>
      simp only [if_pos rfl]
      cases h3 : w.writeOk with
      | false => simp
      | true =>
        simp only [if_pos rfl]
        exact finishRun_rmtree_indep b1 b2 tmp _ _

/-- C3: if FFmpeg exits non-zero during extraction, the run terminates via
`sys.exit` with a non-zero status and a message carrying the requested track
index, the engine is never loaded or invoked (no fallback to the unextracted
input), and no transcript file is written. -/
theorem extraction_failure_fatal (a : Args) (w : World) (b : Bool) (src : MediaPath)
    (i : Int)
    (hres : resolveInput a w = some src) (hex : w.srcExists src = true)
    (hwh : w.whisperInstalled = true) (htrack : a.audioTrack = some i)
    (hff : w.ffmpegOnPath = true) (hfail : ¬ w.ffmpegExitCode = 0) :
    (run a w b).1 = Outcome.fatalExit (extractFailMsg i w.ffmpegErrStr)
    ∧ (run a w b).1.exitCode ≠ 0
    ∧ (∃ pre suf, (extractFailMsg i w.ffmpegErrStr).data
        = pre ++ (toString i).data ++ suf)
    ∧ (∀ e ∈ (run a w b).2.events, Event.isEngineCall e = false)
    ∧ (run a w b).2.outFile = none := by
  have hrun : run a w b
      = (Outcome.fatalExit (extractFailMsg i w.ffmpegErrStr),
         { events := [Event.importEngine, Event.checkFfmpegOnPath,
                      Event.stageTmpDir w.mkdtempDir,
                      Event.runFfmpeg (extractTrackCmd (pathStr src) i w.mkdtempDir)],
           tmpDirExists := true, outFile := none }) := by
    unfold run
    rw [hres]
    simp [hex, hwh, htrack, hff, hfail]
  refine ⟨by rw [hrun], by rw [hrun]; simp [Outcome.exitCode], ?_, ?_, by rw [hrun]⟩
  · exact ⟨"FFmpeg failed to extract audio track ".data, (": " ++ w.ffmpegErrStr).data,
      by simp [extractFailMsg, String.data_append, List.append_assoc]⟩
  · rw [hrun]
    intro e he
    simp at he
    rcases he with h | h | h | h <;> subst h <;> rfl

theorem extraction_failure_fatal_witness :
    (run sampleArgsTrack sampleWorldExtractFail true).1
      = Outcome.fatalExit (extractFailMsg 0 sampleWorldExtractFail.ffmpegErrStr)
    ∧ (run sampleArgsTrack sampleWorldExtractFail true).2.outFile = none := by
  have h := extraction_failure_fatal sampleArgsTrack sampleWorldExtractFail true sampleSrc 0
    rfl rfl rfl rfl rfl (by decide)
  exact ⟨h.1, h.2.2.2.2⟩

/-- C10: when the transcription result has no `"text"` key at all,
`result.get("text", "")` yields the empty string and the run still succeeds,
creating the transcript artifact as an empty file at the derived path. -/
theorem missing_text_empty_file (a : Args) (w : World) (b : Bool) (src : MediaPath)
    (hres : resolveInput a w = some src) (hex : w.srcExists src = true)
    (hwh : w.whisperInstalled = true) (htrack : a.audioTrack = none)
    (hload : w.loadModelOk = true) (hinf : w.inferenceOk = true)
    (htext : w.resultText = none) (hwrite : w.writeOk = true) :
    (run a w b).1 = Outcome.success (transcriptPath a.outdir src)
    ∧ (run a w b).1.exitCode = 0
    ∧ (run a w b).2.outFile = some "" := by
  have hcontent : transcriptFileContent (Option.getD w.resultText "") = "" := by
    rw [htext]; decide
  have hrun1 : run a w b = transcribeAndWrite a w b src (pathStr src) none
      (resolveDevice a.device w.cudaAvailable)
      { events := [Event.importEngine], tmpDirExists := false, outFile := none } := by
    unfold run
    rw [hres]
    simp [hex, hwh, htrack]
  rw [hrun1]
  unfold transcribeAndWrite
  simp [hload, hinf, hwrite, hcontent, finishRun, Outcome.exitCode]

theorem missing_text_empty_file_witness :
    (run sampleArgsNoTrack sampleWorldNoText true).1
      = Outcome.success (transcriptPath sampleArgsNoTrack.outdir sampleSrc)
    ∧ (run sampleArgsNoTrack sampleWorldNoText true).1.exitCode = 0
    ∧ (run sampleArgsNoTrack sampleWorldNoText true).2.outFile = some "" :=
  missing_text_empty_file sampleArgsNoTrack sampleWorldNoText true sampleSrc
    rfl rfl rfl rfl rfl rfl rfl rfl

/-- C7: a missing engine dependency (the `whisper` import) or a missing
FFmpeg (when a track extraction is requested) is reported by `sys.exit`
with a non-zero status and a message containing installation guidance,
before any file is read, written or staged: the trace of such a run contains
no file-touching event at all, no directory is staged, and no output file
exists. -/
theorem dependency_fail_fast (a : Args) (w : World) (b : Bool) (src : MediaPath) (i : Int)
    (hres : resolveInput a w = some src) (hex : w.srcExists src = true) :
    (w.whisperInstalled = false →
      (run a w b).1 = Outcome.fatalExit whisperMissingMsg
      ∧ (run a w b).1.exitCode ≠ 0
      ∧ (run a w b).2.events = []
      ∧ (run a w b).2.tmpDirExists = false
      ∧ (run a w b).2.outFile = none)
    ∧ (w.whisperInstalled = true → a.audioTrack = some i → w.ffmpegOnPath = false →
      (run a w b).1 = Outcome.fatalExit ffmpegMissingMsg
      ∧ (run a w b).1.exitCode ≠ 0
      ∧ (∀ e ∈ (run a w b).2.events, Event.isFileWork e = false)
      ∧ (run a w b).2.tmpDirExists = false
      ∧ (run a w b).2.outFile = none)
    ∧ (∃ pre suf, whisperMissingMsg.data = pre ++ "install".data ++ suf)
    ∧ (∃ pre suf, ffmpegMissingMsg.data = pre ++ "install".data ++ suf) := by
  refine ⟨?_, ?_, ?_, ?_⟩
  · intro hwh
    have hrun : run a w b = (Outcome.fatalExit whisperMissingMsg,
        { events := [], tmpDirExists := false, outFile := none }) := by
      unfold run
      rw [hres]
      simp [hex, hwh]
    rw [hrun]
    exact ⟨rfl, by simp [Outcome.exitCode], rfl, rfl, rfl⟩
  · intro hwh htrack hff
    have hrun : run a w b = (Outcome.fatalExit ffmpegMissingMsg,
        { events := [Event.importEngine, Event.checkFfmpegOnPath],
          tmpDirExists := false, outFile := none }) := by
      unfold run
      rw [hres]
      simp [hex, hwh, htrack, hff]
    rw [hrun]
    refine ⟨rfl, by simp [Outcome.exitCode], ?_, rfl, rfl⟩
    intro e he
    simp at he
    rcases he with h | h <;> subst h <;> rfl
  · exact ⟨"The \x27whisper\x27 package is not ".data,
      "ed. Install via: pip install -U openai-whisper".data, by decide⟩
  · exact ⟨"FFmpeg not found. Please ".data,
      " FFmpeg and ensure it is in your PATH.".data, by decide⟩

theorem dependency_fail_fast_witness :
    ((run sampleArgsTrack sampleWorldNoWhisper true).1 = Outcome.fatalExit whisperMissingMsg
      ∧ (run sampleArgsTrack sampleWorldNoWhisper true).2.events = [])
    ∧ ((run sampleArgsTrack sampleWorldNoFfmpeg true).1 = Outcome.fatalExit ffmpegMissingMsg
      ∧ (run sampleArgsTrack sampleWorldNoFfmpeg true).2.tmpDirExists = false) := by
  refine ⟨?_, ?_⟩
  · have h := dependency_fail_fast sampleArgsTrack sampleWorldNoWhisper true sampleSrc 0 rfl rfl
    exact ⟨(h.1 rfl).1, (h.1 rfl).2.2.1⟩
  · have h := dependency_fail_fast sampleArgsTrack sampleWorldNoFfmpeg true sampleSrc 0 rfl rfl
    exact ⟨(h.2.1 rfl rfl rfl).1, (h.2.1 rfl rfl rfl).2.2.2.1⟩

/-- C1 counterexample: the claim says the staged directory never survives
process termination, on the success path and on every abort path.  In the
source there is no `try/finally`: cleanup (lines 115-119) is reached only by
falling off the end of the success path.  Concretely, with `--audio-track 0`,
a successful extraction and a model-load failure, the process terminates
(uncaught exception, nonzero status) with the staged directory still on
disk. -/
theorem fatal_cleanup_cex :
    (run sampleArgsTrack sampleWorldLoadFail true).1 = Outcome.uncaught PyErr.loadModelError
    ∧ (run sampleArgsTrack sampleWorldLoadFail true).1.exitCode ≠ 0
    ∧ (run sampleArgsTrack sampleWorldLoadFail true).2.tmpDirExists = true := by
  refine ⟨rfl, by decide, rfl⟩

/-- C1 (amended): the staged temporary directory is removed only by the
normal end of the success path (extraction, model load, inference and write
all succeed, and `rmtree` itself succeeds); on every abort path that runs
after the directory was staged — extraction failure itself, model-load
failure, inference failure, or transcript-write failure — the process
terminates with the staged directory still existing. -/
theorem cleanup_success_path_only (a : Args) (w : World) (src : MediaPath) (i : Int)
    (hres : resolveInput a w = some src) (hex : w.srcExists src = true)
    (hwh : w.whisperInstalled = true) (htrack : a.audioTrack = some i)
    (hff : w.ffmpegOnPath = true) :
    (w.ffmpegExitCode = 0 → w.loadModelOk = true → w.inferenceOk = true →
      w.writeOk = true →
      (run a w true).1 = Outcome.success (transcriptPath a.outdir src)
      ∧ (run a w true).2.tmpDirExists = false)
    ∧ (¬ w.ffmpegExitCode = 0 → ∀ b, (run a w b).2.tmpDirExists = true)
    ∧ (w.ffmpegExitCode = 0 → w.loadModelOk = false →
        ∀ b, (run a w b).2.tmpDirExists = true)
    ∧ (w.ffmpegExitCode = 0 → w.inferenceOk = false →
        ∀ b, (run a w b).2.tmpDirExists = true)
    ∧ (w.ffmpegExitCode = 0 → w.loadModelOk = true → w.inferenceOk = true →
        w.writeOk = false → ∀ b, (run a w b).2.tmpDirExists = true) := by
  have hbase : ∀ b, w.ffmpegExitCode = 0 → run a w b
      = transcribeAndWrite a w b src (w.mkdtempDir ++ "/audio_track.wav")
          (some w.mkdtempDir) (resolveDevice a.device w.cudaAvailable)
          { events := [Event.importEngine, Event.checkFfmpegOnPath,
                       Event.stageTmpDir w.mkdtempDir,
                       Event.runFfmpeg (extractTrackCmd (pathStr src) i w.mkdtempDir)],
            tmpDirExists := true, outFile := none } := by
    intro b hzero
    unfold run
    rw [hres]
    simp [hex, hwh, htrack, hff, hzero]
  refine ⟨?_, ?_, ?_, ?_, ?_⟩
  · intro hzero hload hinf hwrite
    rw [hbase true hzero]
    unfold transcribeAndWrite
    simp [hload, hinf, hwrite, finishRun]
  · intro hfail b
    unfold run
    rw [hres]
    simp [hex, hwh, htrack, hff, hfail]
  · intro hzero hload b
    rw [hbase b hzero]
    unfold transcribeAndWrite
    simp [hload]
  · intro hzero hinf b
    rw [hbase b hzero]
    unfold transcribeAndWrite
    cases hload : w.loadModelOk <;> simp [hload, hinf]
  · intro hzero hload hinf hwrite b
    rw [hbase b hzero]
    unfold transcribeAndWrite
    simp [hload, hinf, hwrite]

theorem cleanup_success_path_only_witness :
    (run sampleArgsTrack sampleWorldOk true).1
      = Outcome.success (transcriptPath sampleArgsTrack.outdir sampleSrc)
    ∧ (run sampleArgsTrack sampleWorldOk true).2.tmpDirExists = false := by
  have h := cleanup_success_path_only sampleArgsTrack sampleWorldOk sampleSrc 0
    rfl rfl rfl rfl rfl
  exact h.1 rfl rfl rfl rfl

/-- The whole run, apart from whether the staged directory is gone at the
end, does not depend on whether `shutil.rmtree` succeeded. -/
theorem run_rmtree_indep (a : Args) (w : World) (b1 b2 : Bool) :
    (run a w b1).1 = (run a w b2).1
    ∧ (run a w b1).2.events = (run a w b2).2.events
    ∧ (run a w b1).2.outFile = (run a w b2).2.outFile := by
  cases hres : resolveInput a w with
  | none =>
    have h : ∀ b, run a w b
        = (Outcome.fatalExit noInputMsg,
           { events := [], tmpDirExists := false, outFile := none }) := by
      intro b; unfold run; rw [hres]
    rw [h b1, h b2]
    exact ⟨rfl, rfl, rfl⟩
  | some src =>
    cases hex : w.srcExists src with
    | false =>
      have h : ∀ b, run a w b
          = (Outcome.fatalExit noInputMsg,
             { events := [], tmpDirExists := false, outFile := none }) := by
        intro b; unfold run; rw [hres]; simp [hex]
      rw [h b1, h b2]
      exact ⟨rfl, rfl, rfl⟩
    | true =>
      cases hwh : w.whisperInstalled with
      | false =>
        have h : ∀ b, run a w b
            = (Outcome.fatalExit whisperMissingMsg,
               { events := [], tmpDirExists := false, outFile := none }) := by
          intro b; unfold run; rw [hres]; simp [hex, hwh]
        rw [h b1, h b2]
        exact ⟨rfl, rfl, rfl⟩
      | true =>
        cases htrack : a.audioTrack with
        | none =>
          have h : ∀ b, run a w b = transcribeAndWrite a w b src (pathStr src) none
              (resolveDevice a.device w.cudaAvailable)
              { events := [Event.importEngine], tmpDirExists := false, outFile := none } := by
            intro b; unfold run; rw [hres]; simp [hex, hwh, htrack]
          rw [h b1, h b2]
          exact transcribeAndWrite_rmtree_indep a w b1 b2 src _ _ _ _
        | some i =>
          cases hff : w.ffmpegOnPath with
          | false =>
            have h : ∀ b, run a w b
                = (Outcome.fatalExit ffmpegMissingMsg,
                   { events := [Event.importEngine, Event.checkFfmpegOnPath],
                     tmpDirExists := false, outFile := none }) := by
              intro b; unfold run; rw [hres]; simp [hex, hwh, htrack, hff]
            rw [h b1, h b2]
            exact ⟨rfl, rfl, rfl⟩
          | true =>
            by_cases hzero : w.ffmpegExitCode = 0
            · have h : ∀ b, run a w b = transcribeAndWrite a w b src
                  (w.mkdtempDir ++ "/audio_track.wav") (some w.mkdtempDir)
                  (resolveDevice a.device w.cudaAvailable)
                  { events := [Event.importEngine, Event.checkFfmpegOnPath,
                               Event.stageTmpDir w.mkdtempDir,
                               Event.runFfmpeg (extractTrackCmd (pathStr src) i w.mkdtempDir)],
                    tmpDirExists := true, outFile := none } := by
                intro b; unfold run; rw [hres]; simp [hex, hwh, htrack, hff, hzero]
              rw [h b1, h b2]
              exact transcribeAndWrite_rmtree_indep a w b1 b2 src _ _ _ _
            · have h : ∀ b, run a w b
                  = (Outcome.fatalExit (extractFailMsg i w.ffmpegErrStr),
                     { events := [Event.importEngine, Event.checkFfmpegOnPath,
                                  Event.stageTmpDir w.mkdtempDir,
                                  Event.runFfmpeg (extractTrackCmd (pathStr src) i w.mkdtempDir)],
                       tmpDirExists := true, outFile := none }) := by
                intro b; unfold run; rw [hres]; simp [hex, hwh, htrack, hff, hzero]
              rw [h b1, h b2]
              exact ⟨rfl, rfl, rfl⟩

/-- C9: a failure of `shutil.rmtree` during cleanup is swallowed and never
changes the run's observable outcome: whether cleanup succeeds alters
neither the outcome (printed result, error, exit status) nor the event trace
nor the output file; and a run that reports success exits with status 0
(after having printed the artifact path). -/
theorem swallow_rmtree_failure (a : Args) (w : World) (b1 b2 : Bool) :
    (run a w b1).1 = (run a w b2).1
    ∧ (run a w b1).2.events = (run a w b2).2.events
    ∧ (run a w b1).2.outFile = (run a w b2).2.outFile
    ∧ (∀ p, (run a w b1).1 = Outcome.success p → (run a w b1).1.exitCode = 0) := by
  refine ⟨(run_rmtree_indep a w b1 b2).1, (run_rmtree_indep a w b1 b2).2.1,
    (run_rmtree_indep a w b1 b2).2.2, ?_⟩
  intro p hp
  rw [hp]
  rfl

theorem swallow_rmtree_failure_witness :
    (run sampleArgsTrack sampleWorldOk false).1 = (run sampleArgsTrack sampleWorldOk true).1
    ∧ (run sampleArgsTrack sampleWorldOk false).1.exitCode = 0 := by
  have h := swallow_rmtree_failure sampleArgsTrack sampleWorldOk false true
  exact ⟨h.1, h.2.2.2 (transcriptPath sampleArgsTrack.outdir sampleSrc) (by decide)⟩
